import Mathlib

/-!
Verification of the KMJ indicator pipeline (FableFatale/KMJ).

The repository contains several parallel implementations of the same
pipeline; each is embedded in its own namespace:

* `KMJ.sa`   — `src/stock_analyzer.py`
* `KMJ.ki`   — `src/kmj_indicator.py`
* `KMJ.core` — `src/src/core/kmj_indicator.py` and
               `src/src/core/stock_analyzer.py`
* `KMJ.app`  — `src/app.py` (which imports the `core` indicator pipeline)
* `KMJ.spec` — definitions written from the specification text, used only
               to compare the implementations against the spec's wording.

Numeric values are embedded as rationals.  A pandas/NumPy `NaN` cell is
embedded as `Option.none`; a DataFrame column that may be absent is an
`Option` of the column list.  Python semantics that matter here and are
modelled explicitly: comparisons against NaN are `False`; `min(c, x)`
returns `c` when `x` is NaN; NumPy float division by zero yields
`inf`/`-inf`/`nan` (not an exception), which then flows through the
`min`/comparison rules.
-/

namespace KMJ

/-- One OHLCV bar (a row of the input DataFrame).  All base columns are
numeric in the embedding. -/
structure Bar where
  open_ : ℚ
  high : ℚ
  low : ℚ
  close : ℚ
  volume : ℚ
deriving DecidableEq

instance : Inhabited Bar := ⟨⟨0, 0, 0, 0, 0⟩⟩

/-- A DataFrame as the pipeline sees it: the base OHLCV rows plus the
indicator columns, each of which may be absent (`none`) and whose cells
may be NaN (`none` at the cell level).  `KMJ_TREND` cells are the ints
1 / -1 / 0 and are never NaN in any of the implementations. -/
structure DF where
  bars : List Bar
  kmj1 : Option (List ℚ)
  kmj2 : Option (List (Option ℚ))
  kmj3 : Option (List (Option ℚ))
  trend : Option (List Int)
deriving DecidableEq

/-- A raw input frame: OHLCV only, no indicator columns. -/
def rawDF (bars : List Bar) : DF := ⟨bars, none, none, none, none⟩

/-- `pd.DataFrame()`: a frame with no rows and no columns. -/
def emptyDF : DF := ⟨[], none, none, none, none⟩

/-- Cell of an optional indicator column, `none` when the column is
absent or the index is out of range. -/
def cell (col : Option (List (Option ℚ))) (i : ℕ) : Option ℚ :=
  (col.getD []).getD i none

/-- Pandas `a > b` on possibly-NaN cells: any comparison with NaN is
`False`. -/
def optGT : Option ℚ → Option ℚ → Bool
  | some a, some b => decide (b < a)
  | _, _ => false

/-- Pandas `a < b` on possibly-NaN cells. -/
def optLT : Option ℚ → Option ℚ → Bool
  | some a, some b => decide (a < b)
  | _, _ => false

/-- Pandas `a <= b` on possibly-NaN cells. -/
def optLE : Option ℚ → Option ℚ → Bool
  | some a, some b => decide (a ≤ b)
  | _, _ => false

/-- Pandas `a >= b` on possibly-NaN cells. -/
def optGE : Option ℚ → Option ℚ → Bool
  | some a, some b => decide (b ≤ a)
  | _, _ => false

/-- `KMJ1 = (low + high + open + 3*close) / 6`, identical in every
implementation. -/
def kmj1Bar (b : Bar) : ℚ := (b.low + b.high + b.open_ + 3 * b.close) / 6

namespace sa

/-!  `src/stock_analyzer.py`. -/

/-- `calculate_kmj_indicators`, KMJ2 step (lines 26-42): `NaN` for
`i < 20`; otherwise the window `KMJ1[i-20..i]` (oldest first) is dotted
with `weights = np.array(range(21, 0, -1)) = [21, 20, ..., 1]` — so
window position `j` carries weight `21 - j`, i.e. the OLDEST bar in the
window carries weight 21 — and divided by `weights_sum = 231`. -/
def kmj2At (k1 : List ℚ) (i : ℕ) : Option ℚ :=
  if i < 20 then none
  else some ((∑ j ∈ Finset.range 21, ((21 - j : ℕ) : ℚ) * k1.getD (i - 20 + j) 0) / 231)

/-- `data['KMJ2'].rolling(window=5).mean()` with the default
`min_periods` (= 5): defined only when the window holds 5 non-NaN
values, in which case it is their plain mean. -/
def rollMean5 (xs : List (Option ℚ)) (i : ℕ) : Option ℚ :=
  if 4 ≤ i ∧ ∀ j ∈ Finset.range 5, (xs.getD (i - j) none).isSome then
    some ((∑ j ∈ Finset.range 5, (xs.getD (i - j) none).getD 0) / 5)
  else none

/-- The column assignments of `calculate_kmj_indicators` (lines 24-45),
performed in place on its argument. -/
def annotateFrom (df : DF) : DF :=
  let k1 := df.bars.map kmj1Bar
  let k2 := (List.range df.bars.length).map (kmj2At k1)
  let k3 := (List.range df.bars.length).map (rollMean5 k2)
  ⟨df.bars, some k1, some k2, some k3, df.trend⟩

/-- `calculate_kmj_indicators` (lines 18-47) with the in-place column
writes made explicit: the result is `(return value, final state of the
caller's argument)`.  For `len(data) < 25` it returns a fresh
`pd.DataFrame()` and touches nothing; otherwise it assigns the KMJ
columns directly on `data` and returns that same object. -/
def calculate_kmj_indicators (df : DF) : DF × DF :=
  if df.bars.length < 25 then (emptyDF, df)
  else
    let r := annotateFrom df
    (r, r)

/-- `calculate_signals` buy column (line 55):
`(KMJ2 > KMJ3) & (KMJ2.shift(1) <= KMJ3.shift(1))`; the shifted row 0 is
NaN, and every comparison involving NaN is `False`. -/
def buyAt (k2 k3 : List (Option ℚ)) (i : ℕ) : Bool :=
  optGT (k2.getD i none) (k3.getD i none) &&
    (match i with
     | 0 => false
     | j + 1 => optLE (k2.getD j none) (k3.getD j none))

/-- `calculate_signals` sell column (line 56):
`(KMJ2 < KMJ3) & (KMJ2.shift(1) >= KMJ3.shift(1))`. -/
def sellAt (k2 k3 : List (Option ℚ)) (i : ℕ) : Bool :=
  optLT (k2.getD i none) (k3.getD i none) &&
    (match i with
     | 0 => false
     | j + 1 => optGE (k2.getD j none) (k3.getD j none))

/-- The `buy_signal` column of `calculate_signals`. -/
def buy_signal (k2 k3 : List (Option ℚ)) : List Bool :=
  (List.range k2.length).map (buyAt k2 k3)

/-- The `sell_signal` column of `calculate_signals`. -/
def sell_signal (k2 k3 : List (Option ℚ)) : List Bool :=
  (List.range k2.length).map (sellAt k2 k3)

end sa

namespace ki

/-!  `src/kmj_indicator.py`.  Every function begins with `df.copy()` and
writes only to the copy; the `_mut` wrappers below record that by
returning `(result, final state of the argument)`. -/

/-- `calculate_kmj1` (lines 20-48): on an empty frame it returns the
input as is; otherwise it returns a copy carrying the new `KMJ1`
column.  (The required OHLC columns are always present in the embedded
frames, and `pd.to_numeric` is the identity on numeric data.) -/
def calculate_kmj1 (df : DF) : DF :=
  if df.bars.isEmpty then df
  else ⟨df.bars, some (df.bars.map kmj1Bar), df.kmj2, df.kmj3, df.trend⟩

/-- `calculate_kmj2` windowed value (lines 65-72):
`rolling(window=21, min_periods=1)` applied to
`lambda x: np.sum(x * weights[:len(x)]) / np.sum(weights[:len(x)])`
with `weights = np.arange(1, 22) = [1, ..., 21]`.  The window at `i`
holds the `L = min (i+1) 21` values `KMJ1[i+1-L .. i]` (oldest first),
window position `j` carrying weight `j + 1` — so for `i < 20` a
partial-weight average over fewer than 21 bars is produced, and the
value is defined at every index. -/
def kmj2At (k1 : List ℚ) (i : ℕ) : ℚ :=
  let L := min (i + 1) 21
  (∑ j ∈ Finset.range L, ((j + 1 : ℕ) : ℚ) * k1.getD (i + 1 - L + j) 0) /
    (∑ j ∈ Finset.range L, ((j + 1 : ℕ) : ℚ))

/-- `calculate_kmj2` (lines 50-83): requires the `KMJ1` column (else the
input is returned); otherwise a copy with the rolling `KMJ2` column. -/
def calculate_kmj2 (df : DF) : DF :=
  if df.bars.isEmpty then df
  else
    match df.kmj1 with
    | none => df
    | some k1 =>
        ⟨df.bars, some k1, some ((List.range k1.length).map (fun i => some (kmj2At k1 i))),
          df.kmj3, df.trend⟩

/-- `rolling(window=w, min_periods=1).mean()`: the mean of the non-NaN
values in the trailing window of width `w`, NaN when there are none. -/
def rollMeanMin1 (xs : List (Option ℚ)) (w i : ℕ) : Option ℚ :=
  let L := min (i + 1) w
  let vals := ((List.range L).map (fun j => xs.getD (i + 1 - L + j) none)).reduceOption
  if vals.isEmpty then none else some (vals.sum / vals.length)

/-- `calculate_kmj3` (lines 85-113): requires the `KMJ2` column; a copy
with `KMJ3 = KMJ2.rolling(window=5, min_periods=1).mean()`. -/
def calculate_kmj3 (df : DF) : DF :=
  if df.bars.isEmpty then df
  else
    match df.kmj2 with
    | none => df
    | some k2 =>
        ⟨df.bars, df.kmj1, some k2,
          some ((List.range k2.length).map (rollMeanMin1 k2 5)), df.trend⟩

/-- `add_trend_indicator` per-cell rule (lines 158-171): rows enter the
valid mask only when `KMJ3` is non-NaN and nonzero; on those rows
`rel = KMJ2/KMJ3 - 1` is compared against `threshold = 0.001`, and a
NaN `rel` (NaN `KMJ2`) satisfies neither comparison, so the trend stays
at its initialisation value 0. -/
def trendAt (k2 k3 : Option ℚ) : Int :=
  match k3 with
  | none => 0
  | some v3 =>
      if v3 = 0 then 0
      else
        match k2 with
        | none => 0
        | some v2 =>
            let rel := v2 / v3 - 1
            if 1 / 1000 < rel then 1
            else if rel < -(1 / 1000) then -1
            else 0

/-- `add_trend_indicator` (lines 138-177): requires the `KMJ2` and
`KMJ3` columns (else the input is returned); otherwise a copy with the
`KMJ_TREND` column. -/
def add_trend_indicator (df : DF) : DF :=
  if df.bars.isEmpty then df
  else
    match df.kmj2, df.kmj3 with
    | some k2, some k3 =>
        ⟨df.bars, df.kmj1, some k2, some k3,
          some ((List.range df.bars.length).map (fun i =>
            trendAt (k2.getD i none) (k3.getD i none)))⟩
    | _, _ => df

/-- `calculate_kmj_indicators` (lines 115-136): on an empty frame the
input is returned (after a log line) — the condition is not raised;
otherwise the four stages run in order, each on the previous result. -/
def calculate_kmj_indicators (df : DF) : DF :=
  if df.bars.isEmpty then df
  else add_trend_indicator (calculate_kmj3 (calculate_kmj2 (calculate_kmj1 df)))

/-- `calculate_kmj1` with the argument's final state: the function
copies first (line 35), so the argument is untouched. -/
def calculate_kmj1_mut (df : DF) : DF × DF := (calculate_kmj1 df, df)

/-- `calculate_kmj2` with the argument's final state (copy at line 60). -/
def calculate_kmj2_mut (df : DF) : DF × DF := (calculate_kmj2 df, df)

/-- `calculate_kmj3` with the argument's final state (copy at line 96). -/
def calculate_kmj3_mut (df : DF) : DF × DF := (calculate_kmj3 df, df)

/-- `add_trend_indicator` with the argument's final state (copy at
line 152). -/
def add_trend_indicator_mut (df : DF) : DF × DF := (add_trend_indicator df, df)

/-- `calculate_kmj_indicators` with explicit state threading: the
caller's frame is passed only to `calculate_kmj1`, whose final argument
state is what the caller observes afterwards. -/
def calculate_kmj_indicators_mut (df : DF) : DF × DF :=
  if df.bars.isEmpty then (df, df)
  else
    let s1 := calculate_kmj1_mut df
    let s2 := calculate_kmj2_mut s1.1
    let s3 := calculate_kmj3_mut s2.1
    let s4 := add_trend_indicator_mut s3.1
    (s4.1, s1.2)

/-- `get_kmj_signals` (lines 179-240).  Rows where `KMJ2` or `KMJ3` is
NaN are dropped into `valid_df`; the loop compares each valid row with
the PREVIOUS VALID row using strict `<` / `>`; the computed signals are
scattered back to the original positions, every other row keeping the
initialisation value `False`.  With fewer than 2 rows or no valid rows,
all-`False` columns are returned. -/
def get_kmj_signals (n : ℕ) (k2 k3 : List (Option ℚ)) : List Bool × List Bool :=
  let valid := (List.range n).filter (fun i =>
    (k2.getD i none).isSome && (k3.getD i none).isSome)
  if n < 2 || valid.isEmpty then
    (List.replicate n false, List.replicate n false)
  else
    let pairs := valid.zip valid.tail
    ((List.range n).map (fun i => pairs.any (fun pc =>
        pc.2 = i && optLT (k2.getD pc.1 none) (k3.getD pc.1 none)
          && optGT (k2.getD i none) (k3.getD i none))),
     (List.range n).map (fun i => pairs.any (fun pc =>
        pc.2 = i && optGT (k2.getD pc.1 none) (k3.getD pc.1 none)
          && optLT (k2.getD i none) (k3.getD i none))))

end ki

namespace core

/-!  `src/src/core/kmj_indicator.py` and
`src/src/core/stock_analyzer.py`. -/

/-- The normalisation constant of the core KMJ2 weights:
`weights = [1/(i+1) for i in range(20)]`, later divided by their sum. -/
def hsum : ℚ := ∑ j ∈ Finset.range 20, 1 / ((j : ℚ) + 1)

/-- `calculate_kmj_indicators`, KMJ2 step (lines 20-31): NaN for
`i < 20`; otherwise `values = KMJ1[i-20 : i]` — the 20 bars BEFORE bar
`i`, exclusive of `i` — dotted with the reversed, normalised weights:
position `j` (oldest first) carries `(1/(20-j)) / hsum`, the most
recent bar of the window carrying the largest weight. -/
def kmj2At (k1 : List ℚ) (i : ℕ) : Option ℚ :=
  if i < 20 then none
  else some (∑ j ∈ Finset.range 20, k1.getD (i - 20 + j) 0 * ((1 / ((20 - j : ℕ) : ℚ)) / hsum))

/-- Trend cells of `calculate_kmj_indicators` (lines 36-39): the
two-state rule `1` where `KMJ2 > KMJ3`, `-1` where `KMJ2 < KMJ3`, `0`
otherwise (NaN comparisons are `False`). -/
def trendTwoState (k2 k3 : Option ℚ) : Int :=
  if optGT k2 k3 then 1 else if optLT k2 k3 then -1 else 0

/-- The column assignments of `calculate_kmj_indicators` (lines 15-40),
performed on a copy of the argument.  `KMJ3` is
`KMJ2.rolling(window=5).mean()` with the default `min_periods`. -/
def annotateFrom (df : DF) : DF :=
  let k1 := df.bars.map kmj1Bar
  let k2 := (List.range df.bars.length).map (kmj2At k1)
  let k3 := (List.range df.bars.length).map (sa.rollMean5 k2)
  ⟨df.bars, some k1, some k2, some k3,
    some ((List.range df.bars.length).map (fun i =>
      trendTwoState (k2.getD i none) (k3.getD i none)))⟩

/-- `calculate_kmj_indicators` (lines 4-44): raises `ValueError` on an
empty or null frame — the `raise` sits before the `try`, so it reaches
the caller; otherwise the annotated copy is returned.  (The inner
`except` can only be reached through conditions outside the embedded
input space, e.g. missing base columns.) -/
def calculate_kmj_indicators (df : DF) : Except Unit DF :=
  if df.bars.isEmpty then .error ()
  else .ok (annotateFrom df)

/-- Python's `round` on an exact value: round half to even. -/
def pyRoundInt (x : ℚ) : ℤ :=
  let f := ⌊x⌋
  let r := x - f
  if r < 1 / 2 then f
  else if 1 / 2 < r then f + 1
  else if f % 2 = 0 then f else f + 1

/-- `round(x, 2)`. -/
def roundTo2 (x : ℚ) : ℚ := ((pyRoundInt (100 * x) : ℤ) : ℚ) / 100

/-- The trend term of the core scorer (lines 22-27): `+30` for trend 1,
`-30` for trend -1 — where the sibling in `src/app.py` subtracts 20. -/
def trendTerm (t : Option (List Int)) (n : ℕ) : ℚ :=
  match t with
  | none => 0
  | some tl =>
      let v := tl.getD (n - 1) 0
      if v = 1 then 30 else if v = -1 then -30 else 0

/-- The indicator-spread term (lines 29-34):
`min(20, abs(KMJ2 - KMJ3) / KMJ3 * 100)` on the latest row, guarded
only by column presence.  A NaN operand makes `kmj_diff` NaN and
`min(20, nan) = 20`; `KMJ3 = 0` makes it `inf` or `nan`, and
`min(20, inf) = min(20, nan) = 20`. -/
def kmjTerm (k2col k3col : Option (List (Option ℚ))) (n : ℕ) : ℚ :=
  match k2col, k3col with
  | some l2, some l3 =>
      match l2.getD (n - 1) none, l3.getD (n - 1) none with
      | some a, some b => if b = 0 then 20 else min 20 (|a - b| / b * 100)
      | _, _ => 20
  | _, _ => 0

/-- The momentum term of the core scorer (lines 36-43): skipped
entirely for `len(data) <= 5`; otherwise
`price_change = (close[-1]/close[-6] - 1) * 100`, added as
`min(20, price_change)` when positive and subtracted as
`min(20, |price_change|)` otherwise.  A zero `close[-6]` gives
`inf`/`-inf`/`nan`, all of which saturate at `±20` (the `nan` case
falls into the subtracting branch because `nan > 0` is `False`). -/
def momTerm (bars : List Bar) (n : ℕ) : ℚ :=
  if 5 < n then
    let clast := (bars.getD (n - 1) default).close
    let c6 := (bars.getD (n - 6) default).close
    if c6 = 0 then (if 0 < clast then 20 else -20)
    else
      let pc := (clast / c6 - 1) * 100
      if 0 < pc then min 20 pc else -(min 20 |pc|)
  else 0

/-- The volume term of the core scorer (lines 45-56): trailing-5 mean
volume against the preceding 5-bar block (full-series mean when
`len(data) <= 10`); skipped unless the prior average is positive. -/
def volTerm (bars : List Bar) (n : ℕ) : ℚ :=
  if 5 < n then
    let vols := bars.map (·.volume)
    let avg := ((vols.drop (n - 5)).take 5).sum / 5
    let prev := if 10 < n then ((vols.drop (n - 10)).take 5).sum / 5
                else vols.sum / (n : ℚ)
    if 0 < prev then
      let vc := (avg / prev - 1) * 100
      if 0 < vc then min 10 vc else -(min 10 |vc|)
    else 0
  else 0

/-- The frame the core scorer actually scores (lines 11-14): the KMJ
columns are recomputed — via `calculate_kmj_indicators` (the argument
is non-empty on this path, so it cannot raise) and `get_kmj_signals`,
which only adds the signal columns the scorer never reads — unless
`KMJ2` and `KMJ3` are both present. -/
def scoreData (df : DF) : DF :=
  if df.kmj2.isSome && df.kmj3.isSome then df else annotateFrom df

/-- `calculate_technical_score` (`src/src/core/stock_analyzer.py`,
lines 5-63): `0.0` for an empty frame, otherwise base 50 plus the four
terms, clamped to `[0, 100]` and rounded to 2 decimal places.  The
embedded input space always carries the base OHLCV columns, so the
`except` branch (line 61) is reached by none of the embedded inputs. -/
def calculate_technical_score (df : DF) : ℚ :=
  if df.bars.isEmpty then 0
  else
    let d := scoreData df
    let n := d.bars.length
    roundTo2 (max 0 (min 100
      (50 + trendTerm d.trend n + kmjTerm d.kmj2 d.kmj3 n
         + momTerm d.bars n + volTerm d.bars n)))

end core

namespace app

/-!  `calculate_technical_score` in `src/app.py` (lines 173-230).
`app.py` imports its KMJ pipeline from `src.core.kmj_indicator`. -/

/-- The trend term (lines 188-193): `+30` for trend 1, `-20` for
trend -1, `0` otherwise. -/
def trendTerm (t : Option (List Int)) (n : ℕ) : ℚ :=
  match t with
  | none => 0
  | some tl =>
      let v := tl.getD (n - 1) 0
      if v = 1 then 30 else if v = -1 then -20 else 0

/-- The momentum lines (202-209) as written:

```
if len(data) > 5:
    price_change = (latest['close'] / data.iloc[-6]['close'] - 1) * 100
    if price_change > 0:
        score += min(20, price_change)
else:
        score -= min(20, abs(price_change))
```

the dedented `else` belongs to the OUTER length test, and its body
reads `price_change`, which was never assigned on that path — a
`NameError`, modelled as `.error ()`.  For `len(data) > 5` a positive
change adds `min(20, price_change)` and a non-positive change adds
nothing. -/
def momTermE (bars : List Bar) (n : ℕ) : Except Unit ℚ :=
  if 5 < n then
    let clast := (bars.getD (n - 1) default).close
    let c6 := (bars.getD (n - 6) default).close
    if c6 = 0 then .ok (if 0 < clast then 20 else 0)
    else
      let pc := (clast / c6 - 1) * 100
      .ok (if 0 < pc then min 20 pc else 0)
  else .error ()

/-- The volume term (lines 211-223): as in the core scorer but with the
halved adjustments `min(10, vol_change/2)` / `min(10, |vol_change|/2)`. -/
def volTerm (bars : List Bar) (n : ℕ) : ℚ :=
  if 5 < n then
    let vols := bars.map (·.volume)
    let avg := ((vols.drop (n - 5)).take 5).sum / 5
    let prev := if 10 < n then ((vols.drop (n - 10)).take 5).sum / 5
                else vols.sum / (n : ℚ)
    if 0 < prev then
      let vc := (avg / prev - 1) * 100
      if 0 < vc then min 10 (vc / 2) else -(min 10 (|vc| / 2))
    else 0
  else 0

/-- The frame the app scorer scores (lines 179-181): the core pipeline
is run unless the `KMJ1` column is present. -/
def scoreData (df : DF) : DF :=
  if df.kmj1.isSome then df else core.annotateFrom df

/-- The score computation up to the point where an exception can
escape: the `NameError` from the momentum lines aborts the function
body. -/
def scoreE (df : DF) : Except Unit ℚ :=
  if df.bars.isEmpty then .ok 0
  else
    let d := scoreData df
    let n := d.bars.length
    match momTermE d.bars n with
    | .error e => .error e
    | .ok m =>
        .ok (max 0 (min 100
          (50 + trendTerm d.trend n + core.kmjTerm d.kmj2 d.kmj3 n
             + m + volTerm d.bars n)))

/-- `calculate_technical_score` (`src/app.py`, lines 173-230): the
clamped score — with NO rounding (line 228 is
`return max(0, min(100, score))`) — and `0.0` whenever the body raises
(line 229-231). -/
def calculate_technical_score (df : DF) : ℚ :=
  match scoreE df with
  | .ok s => s
  | .error _ => 0

end app

namespace spec

/-!  Definitions written from the specification's words, used only to
compare the implementations against the spec; nothing below is read
from the source code. -/

/-- KMJ2 as §4.1 of the spec words it: undefined below index 20, else
the weighted moving average of KMJ1 over the trailing 21 bars inclusive
of `i`, "with weights linearly decreasing from 21 (most recent) down to
1 (oldest in window)": window position `j` (oldest first) carries
weight `j + 1`, so the most recent bar carries 21; normalised by the
weight sum 231. -/
def kmj2At (k1 : List ℚ) (i : ℕ) : Option ℚ :=
  if i < 20 then none
  else some ((∑ j ∈ Finset.range 21, ((j + 1 : ℕ) : ℚ) * k1.getD (i - 20 + j) 0) / 231)

/-- The trend classifier as §4.2 of the spec words it: skipped (`none`)
when either input is undefined or KMJ3 is zero; otherwise `1` (Up)
exactly when `rel = kmj2/kmj3 - 1 > 0.001`, `-1` (Down) exactly when
`rel < -0.001`, else `0` (Flat). -/
def classifyTrend (k2 k3 : Option ℚ) : Option Int :=
  match k2, k3 with
  | some v2, some v3 =>
      if v3 = 0 then none
      else
        some (if 1 / 1000 < v2 / v3 - 1 then 1
              else if v2 / v3 - 1 < -(1 / 1000) then -1
              else 0)
  | _, _ => none

/-- The buy signal as §4.3 of the spec words it, from the four cells
(previous KMJ2, previous KMJ3, current KMJ2, current KMJ3): `false`
whenever any is undefined, else `kmj2[i-1] <= kmj3[i-1]` and
`kmj2[i] > kmj3[i]`. -/
def buySignal (p2 p3 c2 c3 : Option ℚ) : Bool :=
  match p2, p3, c2, c3 with
  | some a', some b', some a, some b => decide (a' ≤ b') && decide (b < a)
  | _, _, _, _ => false

/-- The sell signal as §4.3 of the spec words it: `kmj2[i-1] >= kmj3[i-1]`
and `kmj2[i] < kmj3[i]`, `false` on any undefined cell. -/
def sellSignal (p2 p3 c2 c3 : Option ℚ) : Bool :=
  match p2, p3, c2, c3 with
  | some a', some b', some a, some b => decide (b' ≤ a') && decide (a < b)
  | _, _, _, _ => false

end spec

/-- Cell of a numeric (never-NaN) column. -/
def cellQ (col : Option (List ℚ)) (i : ℕ) : ℚ := (col.getD []).getD i 0

/-- Cell of an integer column. -/
def cellZ (col : Option (List Int)) (i : ℕ) : Int := (col.getD []).getD i 0

/-- A bar with all four prices equal to `p` and volume `v`. -/
def mkBar (p v : ℚ) : Bar := ⟨p, p, p, p, v⟩

/-- 24 all-zero bars followed by one all-one bar: KMJ1 is
`[0, ..., 0, 1]`, isolating the weight applied to the newest bar of the
window ending at index 24. -/
def barsImpulse : List Bar := List.replicate 24 (mkBar 0 0) ++ [mkBar 1 1]

/-- 25 identical bars, raw. -/
def dfConst25 : DF := rawDF (List.replicate 25 (mkBar 1 1))

/-- 24 identical bars, raw — one short of the 25-bar threshold. -/
def dfConst24 : DF := rawDF (List.replicate 24 (mkBar 1 1))

/-- A 6-bar annotated frame: constant price 1 and volume 1 (so momentum
and volume terms are 0), latest trend 1 (+30), latest `KMJ2 = 3.01` and
`KMJ3 = 3` (spread term `1/3`): total score `50 + 30 + 1/3 = 241/3`,
inside the clamp band. -/
def frScore6 : DF :=
  ⟨List.replicate 6 (mkBar 1 1), some (List.replicate 6 1),
    some (List.replicate 5 none ++ [some (301 / 100)]),
    some (List.replicate 5 none ++ [some 3]),
    some [0, 0, 0, 0, 0, 1]⟩

/-- A 6-bar annotated frame whose only varying field is the latest
trend cell; every other score term is 0 (constant prices and volumes,
`KMJ2 = KMJ3 = 3` at the latest bar). -/
def frTrend (t : Int) : DF :=
  ⟨List.replicate 6 (mkBar 1 1), some (List.replicate 6 1),
    some (List.replicate 5 none ++ [some 3]),
    some (List.replicate 5 none ++ [some 3]),
    some [0, 0, 0, 0, 0, t]⟩

/-- A 5-bar annotated frame (constant price and volume, latest trend 1,
`KMJ2 = KMJ3 = 3`): under skip-the-momentum-term semantics it scores
`50 + 30 = 80`. -/
def frShort5 : DF :=
  ⟨List.replicate 5 (mkBar 1 1), some (List.replicate 5 1),
    some (List.replicate 4 none ++ [some 3]),
    some (List.replicate 4 none ++ [some 3]),
    some [0, 0, 0, 0, 1]⟩

/-- A 1-bar annotated frame for exercising the trend classifier. -/
def frTrendCheck : DF := ⟨[mkBar 1 1], some [1], some [some 2], some [some 1], none⟩

/-!  ## Theorems -/

theorem getD_range_map {α : Type} (f : ℕ → α) (d : α) {n i : ℕ} (h : i < n) :
    ((List.range n).map f).getD i d = f i := by
  rw [List.getD_eq_getElem?_getD, List.getElem?_map, List.getElem?_range h]
  rfl

theorem getD_eq_of_mem_const {α : Type} {c d : α} {l : List α}
    (h : ∀ x ∈ l, x = c) {i : ℕ} (hi : i < l.length) : l.getD i d = c := by
  rw [List.getD_eq_getElem?_getD, List.getElem?_eq_getElem hi]
  exact h _ (List.getElem_mem hi)

theorem ki_calculate_kmj1_bars (df : DF) : (ki.calculate_kmj1 df).bars = df.bars := by
  unfold ki.calculate_kmj1
  split <;> rfl

theorem ki_calculate_kmj2_bars (df : DF) : (ki.calculate_kmj2 df).bars = df.bars := by
  unfold ki.calculate_kmj2
  split
  · rfl
  · cases df.kmj1 <;> rfl

theorem ki_calculate_kmj3_bars (df : DF) : (ki.calculate_kmj3 df).bars = df.bars := by
  unfold ki.calculate_kmj3
  split
  · rfl
  · cases df.kmj2 <;> rfl

theorem ki_add_trend_indicator_bars (df : DF) :
    (ki.add_trend_indicator df).bars = df.bars := by
  unfold ki.add_trend_indicator
  split
  · rfl
  · cases df.kmj2 <;> cases df.kmj3 <;> rfl

theorem ki_pipeline_bars (df : DF) :
    (ki.calculate_kmj_indicators df).bars = df.bars := by
  unfold ki.calculate_kmj_indicators
  split
  · rfl
  · rw [ki_add_trend_indicator_bars, ki_calculate_kmj3_bars, ki_calculate_kmj2_bars,
      ki_calculate_kmj1_bars]

/-- On a non-empty frame the `kmj_indicator` pipeline computes every
column. -/
theorem ki_pipeline_eq (df : DF) (h : ¬df.bars.isEmpty) :
    ki.calculate_kmj_indicators df =
      (let k1 := df.bars.map kmj1Bar
       let k2 := (List.range k1.length).map (fun i => some (ki.kmj2At k1 i))
       let k3 := (List.range k2.length).map (ki.rollMeanMin1 k2 5)
       ⟨df.bars, some k1, some k2, some k3,
         some ((List.range df.bars.length).map (fun i =>
           ki.trendAt (k2.getD i none) (k3.getD i none)))⟩ : DF) := by
  simp only [ki.calculate_kmj_indicators, ki.calculate_kmj1, ki.calculate_kmj2,
    ki.calculate_kmj3, ki.add_trend_indicator, h, Bool.false_eq_true, if_false]

/-- C8 (amended).  On an empty series the `src/src/core` transform
raises `ValueError` before its `try` block, surfacing it to the caller;
the `src/kmj_indicator.py` transform instead logs and silently returns
its input unchanged. -/
theorem c8_empty_series_raises (df : DF) (h : df.bars = []) :
    core.calculate_kmj_indicators df = .error () ∧
    ki.calculate_kmj_indicators df = df := by
  refine ⟨?_, ?_⟩ <;>
    simp [core.calculate_kmj_indicators, ki.calculate_kmj_indicators, h]

theorem c8_witness :
    emptyDF.bars = [] ∧
      (core.calculate_kmj_indicators emptyDF = .error () ∧
       ki.calculate_kmj_indicators emptyDF = emptyDF) :=
  ⟨rfl, c8_empty_series_raises emptyDF rfl⟩

/-- C8 counterexample to the claim as stated: the transform of
`src/kmj_indicator.py` does NOT fail on the empty series — it returns
the input unchanged (no error value, no raise: the embedded function is
total because the Python function catches everything and its
empty-input branch is a logged `return df`). -/
theorem c8_counterexample : ki.calculate_kmj_indicators emptyDF = emptyDF := rfl

/-- C9 (amended).  For a non-empty series shorter than 25 bars the
`stock_analyzer` pipeline DISCARDS the data, returning an empty frame,
while the `kmj_indicator` pipeline preserves every bar and still
computes the KMJ columns (with partial windows), raising nothing. -/
theorem c9_short_series_partial (df : DF) (hlt : df.bars.length < 25)
    (hne : ¬df.bars.isEmpty) :
    (sa.calculate_kmj_indicators df).1 = emptyDF ∧
    (ki.calculate_kmj_indicators df).bars = df.bars ∧
    (ki.calculate_kmj_indicators df).kmj2.isSome = true := by
  refine ⟨?_, ki_pipeline_bars df, ?_⟩
  · simp [sa.calculate_kmj_indicators, hlt]
  · rw [ki_pipeline_eq df hne]
    rfl

theorem c9_witness :
    dfConst24.bars.length < 25 ∧ ¬dfConst24.bars.isEmpty ∧
      ((sa.calculate_kmj_indicators dfConst24).1 = emptyDF ∧
       (ki.calculate_kmj_indicators dfConst24).bars = dfConst24.bars ∧
       (ki.calculate_kmj_indicators dfConst24).kmj2.isSome = true) :=
  ⟨by decide, by decide, c9_short_series_partial dfConst24 (by decide) (by decide)⟩

/-- C9 counterexample to the claim as stated: on a 24-bar series the
`stock_analyzer` pipeline returns a frame with zero rows — the bars are
not preserved but thrown away. -/
theorem c9_counterexample :
    (sa.calculate_kmj_indicators dfConst24).1.bars.length = 0 ∧
    dfConst24.bars.length = 24 := ⟨rfl, rfl⟩

/-- C2 (amended).  The `kmj_indicator` transform has copy semantics:
with the Python in-place writes made explicit as (result, final
argument state), the caller's frame is returned unchanged, and the
result keeps the caller's bars.  (The `stock_analyzer` sibling instead
annotates its argument in place — see the counterexample.) -/
theorem c2_transform_no_mutation (df : DF) :
    (ki.calculate_kmj_indicators_mut df).2 = df ∧
    (ki.calculate_kmj_indicators_mut df).1.bars = df.bars := by
  unfold ki.calculate_kmj_indicators_mut
  split
  · exact ⟨rfl, rfl⟩
  · refine ⟨rfl, ?_⟩
    simp only [ki.add_trend_indicator_mut, ki.calculate_kmj3_mut,
      ki.calculate_kmj2_mut, ki.calculate_kmj1_mut]
    rw [ki_add_trend_indicator_bars, ki_calculate_kmj3_bars, ki_calculate_kmj2_bars,
      ki_calculate_kmj1_bars]

/-- C2 counterexample to the claim as stated: `calculate_kmj_indicators`
in `src/stock_analyzer.py` assigns the `KMJ1`/`KMJ2`/`KMJ3` columns
directly on its argument (`data['KMJ1'] = ...`), so after the call the
caller's 25-bar frame is no longer equal to what was passed in. -/
theorem c2_counterexample :
    (sa.calculate_kmj_indicators dfConst25).2 ≠ dfConst25 := by
  intro h
  have h1 := congrArg DF.kmj1 h
  simp [sa.calculate_kmj_indicators, sa.annotateFrom, dfConst25, rawDF] at h1

/-- C4: the momentum lines of `src/app.py` (202-209) contain a dedented
`else` whose body reads the unassigned `price_change`, so a series with
fewer than 6 bars raises `NameError` inside the scorer, which the
enclosing `except` converts to a score of `0.0` — the term is not
"skipped contributing 0" as the spec and the `src/src/core` sibling
(lines 36-43) have it: under the core's skip semantics the same frame
scores 80.0. -/
theorem c4_short_series_momentum_bug :
    app.scoreE frShort5 = .error () ∧
    app.calculate_technical_score frShort5 = 0 ∧
    core.calculate_technical_score frShort5 = 80 := by
  refine ⟨?_, ?_, ?_⟩
  · norm_num [app.scoreE, app.scoreData, app.momTermE, frShort5, mkBar]
  · norm_num [app.calculate_technical_score, app.scoreE, app.scoreData,
      app.momTermE, frShort5, mkBar]
  · norm_num [core.calculate_technical_score, core.scoreData, core.trendTerm,
      core.kmjTerm, core.momTerm, core.volTerm, core.roundTo2, core.pyRoundInt,
      frShort5, mkBar, List.getD]

/-- C5 (amended).  On otherwise-identical frames whose every non-trend
score term is 0, the `app.py` scorer scores 80 / 50 / 30 for latest
trend Up / Flat / Down — the trend term adds exactly +30, 0, -20 to the
base 50 — while the `src/src/core` scorer subtracts 30 (not 20) on a
Down trend. -/
theorem c5_trend_term_values :
    app.calculate_technical_score (frTrend 1) = 80 ∧
    app.calculate_technical_score (frTrend 0) = 50 ∧
    app.calculate_technical_score (frTrend (-1)) = 30 ∧
    core.calculate_technical_score (frTrend 1) = 80 ∧
    core.calculate_technical_score (frTrend (-1)) = 20 := by
  refine ⟨?_, ?_, ?_, ?_, ?_⟩ <;>
    norm_num [app.calculate_technical_score, app.scoreE, app.scoreData,
      app.momTermE, app.trendTerm, app.volTerm, core.calculate_technical_score,
      core.scoreData, core.trendTerm, core.kmjTerm, core.momTerm, core.volTerm,
      core.roundTo2, core.pyRoundInt, frTrend, mkBar, List.getD]

/-- C5 counterexample to the claim as stated: the `src/src/core` scorer
on a latest-Down frame with all other terms 0 yields 20.0 — it
subtracts 30 from the base 50, not the claimed 20 (which would give
30.0). -/
theorem c5_counterexample :
    core.calculate_technical_score (frTrend (-1)) = 20 ∧
    core.calculate_technical_score (frTrend (-1)) ≠ 50 - 20 := by
  constructor <;>
    norm_num [core.calculate_technical_score, core.scoreData, core.trendTerm,
      core.kmjTerm, core.momTerm, core.volTerm, core.roundTo2, core.pyRoundInt,
      frTrend, mkBar, List.getD]

theorem clamp_bounds (s : ℚ) : 0 ≤ max 0 (min 100 s) ∧ max 0 (min 100 s) ≤ 100 :=
  ⟨le_max_left _ _, max_le (by norm_num) ((min_le_left _ _))⟩

theorem pyRoundInt_bounds {x : ℚ} (h0 : 0 ≤ x) (h1 : x ≤ 10000) :
    0 ≤ core.pyRoundInt x ∧ core.pyRoundInt x ≤ 10000 := by
  have hf0 : (0 : ℤ) ≤ ⌊x⌋ := Int.floor_nonneg.2 h0
  have hfle : (⌊x⌋ : ℚ) ≤ x := Int.floor_le x
  have hle : ⌊x⌋ ≤ 10000 := by exact_mod_cast hfle.trans h1
  have hsucc : ¬(x - ⌊x⌋ < 1 / 2) → ⌊x⌋ + 1 ≤ 10000 := by
    intro hr
    have hlt : (⌊x⌋ : ℚ) < x := by
      have : (1 : ℚ) / 2 ≤ x - ⌊x⌋ := not_lt.1 hr
      linarith
    have : ⌊x⌋ < 10000 := by exact_mod_cast hlt.trans_le h1
    omega
  simp only [core.pyRoundInt]
  split
  · exact ⟨hf0, hle⟩
  · rename_i hr
    split
    · exact ⟨by omega, hsucc hr⟩
    · split
      · exact ⟨hf0, hle⟩
      · exact ⟨by omega, hsucc hr⟩

theorem roundTo2_spec {y : ℚ} (h0 : 0 ≤ y) (h1 : y ≤ 100) :
    0 ≤ core.roundTo2 y ∧ core.roundTo2 y ≤ 100 ∧ (100 * core.roundTo2 y).den = 1 := by
  have h := pyRoundInt_bounds (x := 100 * y) (by positivity) (by linarith)
  have hcancel : (100 : ℚ) * (((core.pyRoundInt (100 * y) : ℤ) : ℚ) / 100) =
      ((core.pyRoundInt (100 * y) : ℤ) : ℚ) := by field_simp
  unfold core.roundTo2
  refine ⟨?_, ?_, ?_⟩
  · exact div_nonneg (by exact_mod_cast h.1) (by norm_num)
  · rw [div_le_iff₀ (by norm_num)]
    calc ((core.pyRoundInt (100 * y) : ℤ) : ℚ) ≤ ((10000 : ℤ) : ℚ) := by
          exact_mod_cast h.2
      _ = 100 * 100 := by norm_num
  · rw [hcancel, Rat.den_intCast]

/-- C3 (amended).  For every embedded input frame the `src/src/core`
scorer returns a value in [0, 100] with exactly 2 decimal places
(100 × score is an integer), and the `app.py` scorer returns a value in
[0, 100]; both return 0.0 on their failure paths (the core scorer's
`except`, unreachable over the embedded input space, and the app
scorer's `NameError` path).  The app scorer does NOT round — see the
counterexample. -/
theorem c3_score_contract (df : DF) :
    0 ≤ core.calculate_technical_score df ∧
    core.calculate_technical_score df ≤ 100 ∧
    (100 * core.calculate_technical_score df).den = 1 ∧
    0 ≤ app.calculate_technical_score df ∧
    app.calculate_technical_score df ≤ 100 := by
  have hcore : 0 ≤ core.calculate_technical_score df ∧
      core.calculate_technical_score df ≤ 100 ∧
      (100 * core.calculate_technical_score df).den = 1 := by
    by_cases hb : df.bars.isEmpty
    · simp [core.calculate_technical_score, hb]
    · have key : ∀ s : ℚ, 0 ≤ core.roundTo2 (max 0 (min 100 s)) ∧
          core.roundTo2 (max 0 (min 100 s)) ≤ 100 ∧
          (100 * core.roundTo2 (max 0 (min 100 s))).den = 1 := fun s =>
        roundTo2_spec (clamp_bounds s).1 (clamp_bounds s).2
      simp only [core.calculate_technical_score, hb, Bool.false_eq_true, if_false]
      exact key _
  have happ : 0 ≤ app.calculate_technical_score df ∧
      app.calculate_technical_score df ≤ 100 := by
    by_cases hb : df.bars.isEmpty
    · simp [app.calculate_technical_score, app.scoreE, hb]
    · rcases hm : app.momTermE (app.scoreData df).bars (app.scoreData df).bars.length
        with e | m
      · simp [app.calculate_technical_score, app.scoreE, hb, hm]
      · have key : ∀ s : ℚ, 0 ≤ max 0 (min 100 s) ∧ max 0 (min 100 s) ≤ 100 :=
          clamp_bounds
        simp only [app.calculate_technical_score, app.scoreE, hb, Bool.false_eq_true,
          if_false, hm]
        exact key _
  exact ⟨hcore.1, hcore.2.1, hcore.2.2, happ.1, happ.2⟩

/-- C3 counterexample to the claim as stated: the `app.py` scorer (one
of the two scorers the claim covers) returns `241/3 = 80.333...` on a
concrete 6-bar frame — a value that is NOT rounded to 2 decimal places
(its hundredfold is not an integer): `app.py` line 228 clamps without
rounding. -/
theorem c3_counterexample :
    app.calculate_technical_score frScore6 = 241 / 3 ∧
    (100 * app.calculate_technical_score frScore6).den ≠ 1 := by
  have hval : app.calculate_technical_score frScore6 = 241 / 3 := by
    norm_num [app.calculate_technical_score, app.scoreE, app.scoreData,
      app.momTermE, app.trendTerm, app.volTerm, core.kmjTerm, frScore6, mkBar,
      List.getD, min_def, max_def, abs_of_nonneg]
  refine ⟨hval, ?_⟩
  rw [hval]
  norm_num [Rat.den]

/-- The per-cell trend rule of `add_trend_indicator` agrees with the
spec's three-state classifier, with skipped cells keeping the
initialisation value 0. -/
theorem trendAt_eq_spec (a b : Option ℚ) :
    ki.trendAt a b = (spec.classifyTrend a b).getD 0 := by
  cases a <;> cases b <;>
    simp only [ki.trendAt, spec.classifyTrend, Option.getD] <;>
    split_ifs <;> rfl

/-- C6 (confirmed).  Wherever the `KMJ2`/`KMJ3` columns are present,
the `KMJ_TREND` cell produced by `add_trend_indicator` equals the
spec's rule: with both inputs defined and `kmj3 ≠ 0`, Up (1) exactly
when `kmj2/kmj3 - 1 > 0.001`, Down (-1) exactly when `< -0.001`, else
Flat (0); when `kmj3` is 0 or either input is undefined the bar is
skipped (no Up/Down label — the cell keeps 0). -/
theorem c6_trend_classification (df : DF) (k2 k3 : List (Option ℚ))
    (h2 : df.kmj2 = some k2) (h3 : df.kmj3 = some k3)
    (hne : ¬df.bars.isEmpty) (i : ℕ) (hi : i < df.bars.length) :
    cellZ (ki.add_trend_indicator df).trend i =
      (spec.classifyTrend (k2.getD i none) (k3.getD i none)).getD 0 := by
  simp only [ki.add_trend_indicator, hne, Bool.false_eq_true, if_false, h2, h3]
  simp only [cellZ, Option.getD_some]
  rw [getD_range_map _ _ hi]
  exact trendAt_eq_spec _ _

theorem c6_witness :
    frTrendCheck.kmj2 = some [some 2] ∧ frTrendCheck.kmj3 = some [some 1] ∧
    ¬frTrendCheck.bars.isEmpty ∧ 0 < frTrendCheck.bars.length ∧
    cellZ (ki.add_trend_indicator frTrendCheck).trend 0 =
      (spec.classifyTrend (List.getD [some 2] 0 none)
        (List.getD [some 1] 0 none)).getD 0 :=
  ⟨rfl, rfl, by decide, by decide,
    c6_trend_classification frTrendCheck [some 2] [some 1] rfl rfl
      (by decide) 0 (by decide)⟩

/-- C7 (amended).  The `calculate_signals` columns of
`src/stock_analyzer.py` satisfy the claim exactly: at bar `i ≥ 1`, buy
iff `kmj2[i-1] <= kmj3[i-1]` and `kmj2[i] > kmj3[i]`, sell iff
`kmj2[i-1] >= kmj3[i-1]` and `kmj2[i] < kmj3[i]`, and any undefined
operand makes both signals false.  (`get_kmj_signals` in
`src/kmj_indicator.py` instead requires a STRICT inequality on the
previous bar and compares consecutive valid rows — see the
counterexample.) -/
theorem c7_sa_signals (k2 k3 : List (Option ℚ)) (i : ℕ)
    (h1 : 1 ≤ i) (hi : i < k2.length) :
    (sa.buy_signal k2 k3).getD i false =
      spec.buySignal (k2.getD (i - 1) none) (k3.getD (i - 1) none)
        (k2.getD i none) (k3.getD i none) ∧
    (sa.sell_signal k2 k3).getD i false =
      spec.sellSignal (k2.getD (i - 1) none) (k3.getD (i - 1) none)
        (k2.getD i none) (k3.getD i none) := by
  obtain ⟨j, rfl⟩ : ∃ j, i = j + 1 := ⟨i - 1, by omega⟩
  unfold sa.buy_signal sa.sell_signal
  rw [getD_range_map _ _ hi, getD_range_map _ _ hi]
  simp only [Nat.add_sub_cancel]
  have hb : sa.buyAt k2 k3 (j + 1) =
      (optGT (k2.getD (j + 1) none) (k3.getD (j + 1) none)
        && optLE (k2.getD j none) (k3.getD j none)) := rfl
  have hs : sa.sellAt k2 k3 (j + 1) =
      (optLT (k2.getD (j + 1) none) (k3.getD (j + 1) none)
        && optGE (k2.getD j none) (k3.getD j none)) := rfl
  rw [hb, hs]
  generalize k2.getD j none = p2
  generalize k3.getD j none = p3
  generalize k2.getD (j + 1) none = c2
  generalize k3.getD (j + 1) none = c3
  constructor <;>
    cases p2 <;> cases p3 <;> cases c2 <;> cases c3 <;>
      simp [optGT, optLT, optLE, optGE, spec.buySignal, spec.sellSignal,
        Bool.and_comm]

theorem c7_witness :
    1 ≤ 1 ∧ 1 < (([some 1, some 2] : List (Option ℚ))).length ∧
    (((sa.buy_signal [some 1, some 2] [some 2, some 1]).getD 1 false =
        spec.buySignal (List.getD [some 1, some 2] 0 none)
          (List.getD [some 2, some 1] 0 none)
          (List.getD [some 1, some 2] 1 none)
          (List.getD [some 2, some 1] 1 none)) ∧
      ((sa.sell_signal [some 1, some 2] [some 2, some 1]).getD 1 false =
        spec.sellSignal (List.getD [some 1, some 2] 0 none)
          (List.getD [some 2, some 1] 0 none)
          (List.getD [some 1, some 2] 1 none)
          (List.getD [some 2, some 1] 1 none))) :=
  ⟨by decide, by decide, c7_sa_signals [some 1, some 2] [some 2, some 1] 1
    (by decide) (by decide)⟩

/-- C7 counterexample to the claim as stated: `get_kmj_signals`
(`src/kmj_indicator.py` lines 213-223) uses strict `<` on the previous
bar, so on the series `kmj2 = [1, 2]`, `kmj3 = [1, 1]` — where
`kmj2[0] <= kmj3[0]` and `kmj2[1] > kmj3[1]`, an upward crossover by
the claim — it reports NO buy signal at bar 1. -/
theorem c7_counterexample :
    (ki.get_kmj_signals 2 [some 1, some 2] [some 1, some 1]).1.getD 1 false = false ∧
    spec.buySignal (List.getD [some 1, some 2] 0 none)
      (List.getD [some 1, some 1] 0 none)
      (List.getD [some 1, some 2] 1 none)
      (List.getD [some 1, some 1] 1 none) = true := by
  constructor
  · norm_num [ki.get_kmj_signals, optLT, optGT, List.filter]
  · norm_num [spec.buySignal]

/-- C1 (amended).  All three cited implementations deviate from the
claim, each differently.  In the `stock_analyzer` pipeline KMJ2 is
undefined below index 20 and never computed from a partial window; for
`i ≥ 20` it is the normalised weighted average of the trailing 21 KMJ1
values with the weight GROWING with the age of the bar: bar `i - j`
carries weight `j + 1`, so the most recent bar carries weight 1 and the
oldest bar of the window carries 21 — the reverse of the claimed
orientation.  The `src/src/core` transform also leaves KMJ2 undefined
below index 20, but for `i ≥ 20` averages the 20 bars STRICTLY BEFORE
bar `i` — bar `i` itself is excluded — with normalised reciprocal
weights: bar `i - 1 - j` carries weight `(1/(j+1)) / hsum`, largest on
the most recent included bar.  The `kmj_indicator` pipeline, in
contrast, produces a defined KMJ2 at EVERY index, using partial-weight
windows below index 20. -/
theorem c1_sa_kmj2_weights (bars : List Bar) (i : ℕ)
    (hlen : 25 ≤ bars.length) (hi : i < bars.length) :
    cell (sa.calculate_kmj_indicators (rawDF bars)).1.kmj2 i =
      (if i < 20 then none
       else some ((∑ j ∈ Finset.range 21,
           ((j + 1 : ℕ) : ℚ) * (bars.map kmj1Bar).getD (i - j) 0) / 231)) ∧
    (core.calculate_kmj_indicators (rawDF bars) =
        .ok (core.annotateFrom (rawDF bars)) ∧
      cell (core.annotateFrom (rawDF bars)).kmj2 i =
        (if i < 20 then none
         else some (∑ j ∈ Finset.range 20,
             ((1 / ((j + 1 : ℕ) : ℚ)) / core.hsum) *
               (bars.map kmj1Bar).getD (i - 1 - j) 0))) ∧
    (cell (ki.calculate_kmj_indicators (rawDF bars)).kmj2 i).isSome = true := by
  have hne : ¬(rawDF bars).bars.isEmpty := by
    cases bars with
    | nil => simp at hlen
    | cons a l => simp [rawDF]
  refine ⟨?_, ⟨?_, ?_⟩, ?_⟩
  · have hnot : ¬(rawDF bars).bars.length < 25 := by simpa [rawDF] using not_lt.2 hlen
    simp only [sa.calculate_kmj_indicators, hnot, if_false]
    simp only [sa.annotateFrom, rawDF, cell, Option.getD_some]
    rw [getD_range_map _ _ hi]
    unfold sa.kmj2At
    split
    · rfl
    · rename_i h20
      have h20' : 20 ≤ i := not_lt.1 h20
      congr 1
      rw [← Finset.sum_range_reflect
        (fun j => ((j + 1 : ℕ) : ℚ) * (bars.map kmj1Bar).getD (i - j) 0) 21]
      congr 1
      apply Finset.sum_congr rfl
      intro j hj
      have hj20 : j < 21 := Finset.mem_range.1 hj
      have e1 : 21 - 1 - j + 1 = 21 - j := by omega
      have e2 : i - (21 - 1 - j) = i - 20 + j := by omega
      rw [e1, e2]
  · simp [core.calculate_kmj_indicators, hne]
  · simp only [core.annotateFrom, rawDF, cell, Option.getD_some]
    rw [getD_range_map _ _ hi]
    unfold core.kmj2At
    split
    · rfl
    · rename_i h20
      have h20' : 20 ≤ i := not_lt.1 h20
      congr 1
      rw [← Finset.sum_range_reflect
        (fun j => ((1 / ((j + 1 : ℕ) : ℚ)) / core.hsum) *
          (bars.map kmj1Bar).getD (i - 1 - j) 0) 20]
      apply Finset.sum_congr rfl
      intro j hj
      have hj20 : j < 20 := Finset.mem_range.1 hj
      have e1 : 20 - 1 - j + 1 = 20 - j := by omega
      have e2 : i - 1 - (20 - 1 - j) = i - 20 + j := by omega
      rw [e1, e2]
      exact mul_comm _ _
  · rw [ki_pipeline_eq (rawDF bars) hne]
    have hi' : i < ((bars.map kmj1Bar)).length := by simpa using hi
    simp only [rawDF]
    rw [cell, Option.getD_some, getD_range_map _ _ hi']
    rfl

theorem c1_witness :
    25 ≤ barsImpulse.length ∧ 24 < barsImpulse.length ∧
    (cell (sa.calculate_kmj_indicators (rawDF barsImpulse)).1.kmj2 24 =
      (if 24 < 20 then none
       else some ((∑ j ∈ Finset.range 21,
           ((j + 1 : ℕ) : ℚ) * (barsImpulse.map kmj1Bar).getD (24 - j) 0) / 231)) ∧
     (core.calculate_kmj_indicators (rawDF barsImpulse) =
        .ok (core.annotateFrom (rawDF barsImpulse)) ∧
      cell (core.annotateFrom (rawDF barsImpulse)).kmj2 24 =
        (if 24 < 20 then none
         else some (∑ j ∈ Finset.range 20,
             ((1 / ((j + 1 : ℕ) : ℚ)) / core.hsum) *
               (barsImpulse.map kmj1Bar).getD (24 - 1 - j) 0))) ∧
     (cell (ki.calculate_kmj_indicators (rawDF barsImpulse)).kmj2 24).isSome = true) :=
  ⟨by decide, by decide, c1_sa_kmj2_weights barsImpulse 24 (by decide) (by decide)⟩

/-- C1 counterexample to the claim as stated: on the 25-bar series with
KMJ1 = [0, ..., 0, 1] the claimed weighting (most recent bar of the
21-bar window inclusive of bar 24 carrying weight 21) yields `21/231`
at index 24, but the `stock_analyzer` value there is `1/231` — its
newest bar carries weight 1 — and the `src/src/core` value is `0`,
because its 20-bar window EXCLUDES bar 24, the only nonzero bar. -/
theorem c1_counterexample :
    cell (sa.calculate_kmj_indicators (rawDF barsImpulse)).1.kmj2 24 = some (1 / 231) ∧
    core.calculate_kmj_indicators (rawDF barsImpulse) =
      .ok (core.annotateFrom (rawDF barsImpulse)) ∧
    cell (core.annotateFrom (rawDF barsImpulse)).kmj2 24 = some 0 ∧
    spec.kmj2At (barsImpulse.map kmj1Bar) 24 = some (21 / 231) ∧
    some ((1 : ℚ) / 231) ≠ some ((21 : ℚ) / 231) ∧
    some ((0 : ℚ)) ≠ some ((21 : ℚ) / 231) := by
  have hk1 : barsImpulse.map kmj1Bar = List.replicate 24 0 ++ [1] := by
    simp [barsImpulse, mkBar, kmj1Bar]
    norm_num
  have h24 : (24 : ℕ) < (rawDF barsImpulse).bars.length := by decide
  have hcell : cell (sa.calculate_kmj_indicators (rawDF barsImpulse)).1.kmj2 24 =
      sa.kmj2At (barsImpulse.map kmj1Bar) 24 := by
    have hnot : ¬(rawDF barsImpulse).bars.length < 25 := by decide
    simp only [sa.calculate_kmj_indicators, hnot, if_false]
    simp only [sa.annotateFrom, cell, Option.getD_some]
    rw [getD_range_map _ _ h24]
    rfl
  have hcell2 : cell (core.annotateFrom (rawDF barsImpulse)).kmj2 24 =
      core.kmj2At (barsImpulse.map kmj1Bar) 24 := by
    simp only [core.annotateFrom, cell, Option.getD_some]
    rw [getD_range_map _ _ h24]
    rfl
  refine ⟨?_, ?_, ?_, ?_, by norm_num, by norm_num⟩
  · rw [hcell, hk1]
    norm_num [sa.kmj2At, Finset.sum_range_succ, List.getD_eq_getElem?_getD,
      List.getElem?_append, List.getElem?_replicate]
  · simp only [core.calculate_kmj_indicators]
    rw [if_neg (by decide)]
  · rw [hcell2, hk1]
    norm_num [core.kmj2At, Finset.sum_range_succ, List.getD_eq_getElem?_getD,
      List.getElem?_append, List.getElem?_replicate]
  · rw [hk1]
    norm_num [spec.kmj2At, Finset.sum_range_succ, List.getD_eq_getElem?_getD,
      List.getElem?_append, List.getElem?_replicate]

theorem kmj1Bar_const {c : ℚ} {b : Bar}
    (h : b.open_ = c ∧ b.high = c ∧ b.low = c ∧ b.close = c) : kmj1Bar b = c := by
  obtain ⟨h1, h2, h3, h4⟩ := h
  rw [kmj1Bar, h1, h2, h3, h4]
  ring

theorem k1_const_getD {c : ℚ} {bars : List Bar}
    (hconst : ∀ b ∈ bars, b.open_ = c ∧ b.high = c ∧ b.low = c ∧ b.close = c)
    {j : ℕ} (hj : j < bars.length) : (bars.map kmj1Bar).getD j 0 = c := by
  apply getD_eq_of_mem_const
  · intro x hx
    obtain ⟨b, hb, rfl⟩ := List.mem_map.1 hx
    exact kmj1Bar_const (hconst b hb)
  · simpa using hj

theorem sumw_sa : (∑ j ∈ Finset.range 21, ((21 - j : ℕ) : ℚ)) = 231 := by
  simp [Finset.sum_range_succ]
  norm_num

theorem hsum_ne : core.hsum ≠ 0 := by
  simp [core.hsum, Finset.sum_range_succ]
  norm_num

theorem sumw_core : (∑ j ∈ Finset.range 20, 1 / ((20 - j : ℕ) : ℚ)) = core.hsum := by
  simp [core.hsum, Finset.sum_range_succ]
  norm_num

theorem sa_kmj2At_const {c : ℚ} {bars : List Bar}
    (hconst : ∀ b ∈ bars, b.open_ = c ∧ b.high = c ∧ b.low = c ∧ b.close = c)
    {i : ℕ} (h20 : 20 ≤ i) (hi : i < bars.length) :
    sa.kmj2At (bars.map kmj1Bar) i = some c := by
  unfold sa.kmj2At
  rw [if_neg (by omega)]
  congr 1
  have hterm : ∀ j ∈ Finset.range 21,
      ((21 - j : ℕ) : ℚ) * (bars.map kmj1Bar).getD (i - 20 + j) 0 =
        ((21 - j : ℕ) : ℚ) * c := by
    intro j hj
    have hj' : j < 21 := Finset.mem_range.1 hj
    rw [k1_const_getD hconst (by omega)]
  rw [Finset.sum_congr rfl hterm, ← Finset.sum_mul, sumw_sa]
  field_simp

theorem sa_kmj2At_none (k1 : List ℚ) {i : ℕ} (h : i < 20) :
    sa.kmj2At k1 i = none := by
  simp [sa.kmj2At, h]

theorem core_kmj2At_const {c : ℚ} {bars : List Bar}
    (hconst : ∀ b ∈ bars, b.open_ = c ∧ b.high = c ∧ b.low = c ∧ b.close = c)
    {i : ℕ} (h20 : 20 ≤ i) (hi : i < bars.length) :
    core.kmj2At (bars.map kmj1Bar) i = some c := by
  unfold core.kmj2At
  rw [if_neg (by omega)]
  congr 1
  have hterm : ∀ j ∈ Finset.range 20,
      (bars.map kmj1Bar).getD (i - 20 + j) 0 * ((1 / ((20 - j : ℕ) : ℚ)) / core.hsum) =
        c * ((1 / ((20 - j : ℕ) : ℚ)) / core.hsum) := by
    intro j hj
    have hj' : j < 20 := Finset.mem_range.1 hj
    rw [k1_const_getD hconst (by omega)]
  rw [Finset.sum_congr rfl hterm, ← Finset.mul_sum, ← Finset.sum_div, sumw_core,
    div_self hsum_ne, mul_one]

theorem core_kmj2At_none (k1 : List ℚ) {i : ℕ} (h : i < 20) :
    core.kmj2At k1 i = none := by
  simp [core.kmj2At, h]

theorem rollMean5_const {c : ℚ} (k2f : ℕ → Option ℚ) (n : ℕ)
    (hdef : ∀ j, 20 ≤ j → j < n → k2f j = some c)
    (hnone : ∀ j, j < 20 → k2f j = none)
    {i : ℕ} (hi : i < n) :
    sa.rollMean5 ((List.range n).map k2f) i = (if 24 ≤ i then some c else none) := by
  by_cases h24 : 24 ≤ i
  · rw [if_pos h24]
    unfold sa.rollMean5
    rw [if_pos ?cond]
    case cond =>
      refine ⟨by omega, ?_⟩
      intro j hj
      have hj5 : j < 5 := Finset.mem_range.1 hj
      rw [getD_range_map _ _ (show i - j < n by omega),
        hdef _ (by omega) (by omega)]
      rfl
    congr 1
    have hterm : ∀ j ∈ Finset.range 5,
        ((((List.range n).map k2f)).getD (i - j) none).getD 0 = c := by
      intro j hj
      have hj5 : j < 5 := Finset.mem_range.1 hj
      rw [getD_range_map _ _ (show i - j < n by omega),
        hdef _ (by omega) (by omega)]
      rfl
    rw [Finset.sum_congr rfl hterm, Finset.sum_const, Finset.card_range]
    ring
  · rw [if_neg h24]
    unfold sa.rollMean5
    rw [if_neg ?ncond]
    case ncond =>
      rintro ⟨h4, hall⟩
      by_cases h20 : i < 20
      · have h0 := hall 0 (Finset.mem_range.2 (by omega))
        rw [Nat.sub_zero, getD_range_map _ _ hi, hnone _ (by omega)] at h0
        simp at h0
      · have h4' := hall 4 (Finset.mem_range.2 (by omega))
        rw [getD_range_map _ _ (show i - 4 < n by omega),
          hnone _ (by omega)] at h4'
        simp at h4'

/-- C10 (confirmed).  On a constant-price series (`high = low = open =
close = c` at every bar) of at least 25 bars, both the
`stock_analyzer` pipeline and the `src/src/core` pipeline yield
`KMJ1[i] = c` everywhere, `KMJ2[i] = c` exactly where KMJ2 is defined
(indices ≥ 20), and `KMJ3[i] = c` exactly where KMJ3 is defined
(indices ≥ 24). -/
theorem c10_constant_series (c : ℚ) (bars : List Bar)
    (hconst : ∀ b ∈ bars, b.open_ = c ∧ b.high = c ∧ b.low = c ∧ b.close = c)
    (hlen : 25 ≤ bars.length) (i : ℕ) (hi : i < bars.length) :
    cellQ (sa.calculate_kmj_indicators (rawDF bars)).1.kmj1 i = c ∧
    cell (sa.calculate_kmj_indicators (rawDF bars)).1.kmj2 i =
      (if 20 ≤ i then some c else none) ∧
    cell (sa.calculate_kmj_indicators (rawDF bars)).1.kmj3 i =
      (if 24 ≤ i then some c else none) ∧
    core.calculate_kmj_indicators (rawDF bars) = .ok (core.annotateFrom (rawDF bars)) ∧
    cellQ (core.annotateFrom (rawDF bars)).kmj1 i = c ∧
    cell (core.annotateFrom (rawDF bars)).kmj2 i = (if 20 ≤ i then some c else none) ∧
    cell (core.annotateFrom (rawDF bars)).kmj3 i = (if 24 ≤ i then some c else none) := by
  have hne : ¬(rawDF bars).bars.isEmpty := by
    cases bars with
    | nil => simp at hlen
    | cons a l => simp [rawDF]
  have hnot : ¬(rawDF bars).bars.length < 25 := by simpa [rawDF] using not_lt.2 hlen
  have hsa : (sa.calculate_kmj_indicators (rawDF bars)).1 = sa.annotateFrom (rawDF bars) := by
    simp [sa.calculate_kmj_indicators, hnot]
  have hk2sa : ∀ j, j < bars.length →
      sa.kmj2At (bars.map kmj1Bar) j = (if 20 ≤ j then some c else none) := by
    intro j hj
    by_cases h20 : 20 ≤ j
    · rw [if_pos h20, sa_kmj2At_const hconst h20 hj]
    · rw [if_neg h20, sa_kmj2At_none _ (by omega)]
  have hk2core : ∀ j, j < bars.length →
      core.kmj2At (bars.map kmj1Bar) j = (if 20 ≤ j then some c else none) := by
    intro j hj
    by_cases h20 : 20 ≤ j
    · rw [if_pos h20, core_kmj2At_const hconst h20 hj]
    · rw [if_neg h20, core_kmj2At_none _ (by omega)]
  refine ⟨?_, ?_, ?_, ?_, ?_, ?_, ?_⟩
  · rw [hsa]
    simp only [sa.annotateFrom, rawDF, cellQ, Option.getD_some]
    exact k1_const_getD hconst hi
  · rw [hsa]
    simp only [sa.annotateFrom, rawDF, cell, Option.getD_some]
    rw [getD_range_map _ _ hi]
    exact hk2sa i hi
  · rw [hsa]
    simp only [sa.annotateFrom, rawDF, cell, Option.getD_some]
    rw [getD_range_map _ _ hi]
    exact rollMean5_const (sa.kmj2At (bars.map kmj1Bar)) bars.length
      (fun j h20 hj => by rw [hk2sa j hj, if_pos h20])
      (fun j hj => sa_kmj2At_none _ hj) hi
  · simp [core.calculate_kmj_indicators, hne]
  · simp only [core.annotateFrom, rawDF, cellQ, Option.getD_some]
    exact k1_const_getD hconst hi
  · simp only [core.annotateFrom, rawDF, cell, Option.getD_some]
    rw [getD_range_map _ _ hi]
    exact hk2core i hi
  · simp only [core.annotateFrom, rawDF, cell, Option.getD_some]
    rw [getD_range_map _ _ hi]
    exact rollMean5_const (core.kmj2At (bars.map kmj1Bar)) bars.length
      (fun j h20 hj => by rw [hk2core j hj, if_pos h20])
      (fun j hj => core_kmj2At_none _ hj) hi

theorem c10_witness :
    (∀ b ∈ List.replicate 25 (mkBar 3 1),
      b.open_ = 3 ∧ b.high = 3 ∧ b.low = 3 ∧ b.close = 3) ∧
    25 ≤ (List.replicate 25 (mkBar 3 1)).length ∧
    24 < (List.replicate 25 (mkBar 3 1)).length ∧
    (cellQ (sa.calculate_kmj_indicators (rawDF (List.replicate 25 (mkBar 3 1)))).1.kmj1 24 = 3 ∧
     cell (sa.calculate_kmj_indicators (rawDF (List.replicate 25 (mkBar 3 1)))).1.kmj2 24 =
       (if 20 ≤ 24 then some 3 else none) ∧
     cell (sa.calculate_kmj_indicators (rawDF (List.replicate 25 (mkBar 3 1)))).1.kmj3 24 =
       (if 24 ≤ 24 then some 3 else none) ∧
     core.calculate_kmj_indicators (rawDF (List.replicate 25 (mkBar 3 1))) =
       .ok (core.annotateFrom (rawDF (List.replicate 25 (mkBar 3 1)))) ∧
     cellQ (core.annotateFrom (rawDF (List.replicate 25 (mkBar 3 1)))).kmj1 24 = 3 ∧
     cell (core.annotateFrom (rawDF (List.replicate 25 (mkBar 3 1)))).kmj2 24 =
       (if 20 ≤ 24 then some 3 else none) ∧
     cell (core.annotateFrom (rawDF (List.replicate 25 (mkBar 3 1)))).kmj3 24 =
       (if 24 ≤ 24 then some 3 else none)) :=
  ⟨fun b hb => by rw [List.eq_of_mem_replicate hb]; exact ⟨rfl, rfl, rfl, rfl⟩,
   by decide, by decide,
   c10_constant_series 3 (List.replicate 25 (mkBar 3 1))
     (fun b hb => by rw [List.eq_of_mem_replicate hb]; exact ⟨rfl, rfl, rfl, rfl⟩)
     (by decide) 24 (by decide)⟩

end KMJ
